import Mathlib

/-!
Verification development for the mobile-automation client
(`enhanced_mcp_client.py` of appium-mcp-server).

The Python code is shallowly embedded: Python values are modelled by the
inductive `PyVal`; every backend interaction (`call_tool`) consumes the next
element of an explicit response stream and is recorded in a call trace; Python
exceptions are modelled by `Except String`; the Python standard-library
collaborators (`json.loads`, `hash`, the `re` module) are abstracted into a
`PyEnv` record of functions, since their behaviour is external to the
repository (CPython's string `hash` is even per-process randomised).
Each definition mirrors one Python function of the source, keeping its name.
-/

/-- A Python value, as used by the client: `None`, booleans, integers,
strings, lists and (string-keyed) dicts. -/
inductive PyVal where
  | none : PyVal
  | bool : Bool → PyVal
  | int : Int → PyVal
  | str : String → PyVal
  | list : List PyVal → PyVal
  | dict : List (String × PyVal) → PyVal
deriving Repr

mutual
/-- Structural equality test on Python values (Python `==` restricted to the
value shapes the client manipulates). -/
def pyBeq : PyVal → PyVal → Bool
  | .none, .none => true
  | .bool a, .bool b => a == b
  | .int a, .int b => a == b
  | .str a, .str b => a == b
  | .list a, .list b => pyBeqList a b
  | .dict a, .dict b => pyBeqDict a b
  | _, _ => false

/-- Elementwise equality of Python lists. -/
def pyBeqList : List PyVal → List PyVal → Bool
  | [], [] => true
  | a :: as₀, b :: bs₀ => pyBeq a b && pyBeqList as₀ bs₀
  | _, _ => false

/-- Itemwise equality of Python dicts (as ordered association lists). -/
def pyBeqDict : List (String × PyVal) → List (String × PyVal) → Bool
  | [], [] => true
  | (ka, va) :: as₀, (kb, vb) :: bs₀ => ka == kb && pyBeq va vb && pyBeqDict as₀ bs₀
  | _, _ => false
end

instance : BEq PyVal := ⟨pyBeq⟩

/-- Python truthiness: `None`, `False`, `0`, `""`, `[]`, `{}` are falsy. -/
def pyTruthy : PyVal → Bool
  | .none => false
  | .bool b => b
  | .int n => n != 0
  | .str s => s != ""
  | .list xs => !xs.isEmpty
  | .dict kvs => !kvs.isEmpty

/-- `d.get(k)` on a Python dict: `None` when the key is absent.  Only defined
on dicts (see `pyGetE` for the raising form used on arbitrary values). -/
def dictGetD : List (String × PyVal) → String → PyVal :=
  fun kvs k => match kvs.lookup k with
    | Option.none => PyVal.none
    | Option.some v => v

/-- `v.get(k)`: raises `AttributeError` when `v` is not a dict (mirroring
Python attribute lookup on a non-dict), else `d.get(k)` with default `None`. -/
def pyGetE : PyVal → String → Except String PyVal
  | .dict kvs, k => .ok (dictGetD kvs k)
  | _, _ => .error ("AttributeError: object has no attribute get")

/-- `v.get(k, default)`: raising on non-dicts, defaulting when absent. -/
def pyGetDE : PyVal → String → PyVal → Except String PyVal
  | .dict kvs, k, d => .ok (match kvs.lookup k with
      | Option.none => d
      | Option.some v => v)
  | _, _, _ => .error ("AttributeError: object has no attribute get")

/-- `v[k]` for a string key: `KeyError` when absent, `TypeError` on
non-dicts. -/
def pySubscriptStr : PyVal → String → Except String PyVal
  | .dict kvs, k => match kvs.lookup k with
      | Option.some v => .ok v
      | Option.none => .error ("KeyError: " ++ k)
  | _, _ => .error ("TypeError: value is not subscriptable by a string")

/-- `v[i]` for a non-negative integer index: lists and strings are
indexable (a string yields its one-character substring), everything else
raises `TypeError`. -/
def pySubscriptNat : PyVal → Nat → Except String PyVal
  | .list xs, i => match xs.get? i with
      | Option.some v => .ok v
      | Option.none => .error ("IndexError: list index out of range")
  | .str s, i => match s.data.get? i with
      | Option.some c => .ok (.str (String.mk [c]))
      | Option.none => .error ("IndexError: string index out of range")
  | _, _ => .error ("TypeError: value is not subscriptable by an integer")

/-- Substring test, Python's `needle in haystack` on strings. -/
def strContains (haystack needle : String) : Bool :=
  decide (List.IsInfix needle.data haystack.data)

/-- Python `str.lower` (ASCII letters; the strings the client lowercases are
ASCII identifiers and UI labels). -/
def pyLower (s : String) : String :=
  String.mk (s.data.map Char.toLower)

/-- Python `str.strip()`: drop leading and trailing whitespace. -/
def pyStrip (s : String) : String :=
  String.mk
    (((s.data.dropWhile Char.isWhitespace).reverse.dropWhile Char.isWhitespace).reverse)

/-- Python `str.startswith`. -/
def strStartsWith (s p : String) : Bool :=
  decide (List.IsPrefix p.data s.data)

/-- Python `str.endswith`. -/
def strEndsWith (s p : String) : Bool :=
  decide (List.IsSuffix p.data s.data)

/-- Python `str.count` on character lists: non-overlapping occurrences,
scanning left to right (the empty pattern counts every gap, as in Python). -/
def countSubstrAux : List Char → List Char → Nat
  | s, [] => s.length + 1
  | [], _ :: _ => 0
  | c :: rest, p :: ps =>
    if (p :: ps).isPrefixOf (c :: rest) then
      1 + countSubstrAux ((c :: rest).drop (p :: ps).length) (p :: ps)
    else countSubstrAux rest (p :: ps)
termination_by s _ => s.length
decreasing_by
  · simp only [List.length_drop, List.length_cons]
    omega
  · simp only [List.length_cons]
    omega

/-- Python `str.count`. -/
def countSubstr (s pat : String) : Nat :=
  countSubstrAux s.data pat.data

/-- Python `str.split()` with no argument: split on whitespace runs,
yielding no empty words.  `acc` holds the current word reversed. -/
def pySplitWsAux : List Char → List Char → List String
  | [], acc => if acc.isEmpty then [] else [String.mk acc.reverse]
  | c :: cs, acc =>
    if c.isWhitespace then
      if acc.isEmpty then pySplitWsAux cs []
      else String.mk acc.reverse :: pySplitWsAux cs []
    else pySplitWsAux cs (c :: acc)

/-- Python `str.split()`. -/
def pySplitWs (s : String) : List String :=
  pySplitWsAux s.data []

mutual
/-- Python `repr` of a value (used for values nested inside containers).
Quote-escaping inside nested string literals is elided; no verified claim
depends on the rendering of containers. -/
def pyRepr : PyVal → String
  | .none => "None"
  | .bool true => "True"
  | .bool false => "False"
  | .int n => toString n
  | .str s => "'" ++ s ++ "'"
  | .list xs => "[" ++ pyReprList xs ++ "]"
  | .dict kvs => "\x7b" ++ pyReprDict kvs ++ "\x7d"

/-- Comma-separated `repr`s of list elements. -/
def pyReprList : List PyVal → String
  | [] => ""
  | [x] => pyRepr x
  | x :: xs => pyRepr x ++ ", " ++ pyReprList xs

/-- Comma-separated `repr`s of dict items. -/
def pyReprDict : List (String × PyVal) → String
  | [] => ""
  | [(k, v)] => "'" ++ k ++ "': " ++ pyRepr v
  | (k, v) :: kvs => "'" ++ k ++ "': " ++ pyRepr v ++ ", " ++ pyReprDict kvs
end

/-- Python `str()`: the string itself for strings, `repr`-like otherwise. -/
def pyStr : PyVal → String
  | .str s => s
  | v => pyRepr v

/-- The standard-library collaborators of the client, abstracted as
functions: `json.loads` (partial: `Option.none` models `JSONDecodeError`),
the builtin `hash` on strings, and the `re` module entry points the client
uses (`findall` returning group-1 matches, `search` returning the first
group of the first match, `sub` replacing every match). -/
structure PyEnv where
  json_loads : String → Option PyVal
  py_hash : String → Int
  re_findall : String → String → List String
  re_search1 : String → String → Option String
  re_sub : String → String → String → String

/-- `parse_tool_result` (enhanced_mcp_client.py, lines 85-93): unwraps the
backend's content-array envelope.  `result['content'][0]['text']` is
subscripted exactly as in the source, so an unexpected shape raises; only
`json.JSONDecodeError` from `json.loads` is caught. -/
def parse_tool_result (env : PyEnv) (result : PyVal) : Except String PyVal :=
  match result with
  | .dict kvs =>
    if pyTruthy (dictGetD kvs "content") then do
      let content ← pySubscriptStr result "content"
      let first ← pySubscriptNat content 0
      let contentText ← pySubscriptStr first "text"
      match contentText with
      | .str s =>
        match env.json_loads s with
        | Option.some v => pure v
        | Option.none =>
          pure (.dict [("status", .str ("error")),
                       ("message", .str ("Invalid JSON in response"))])
      | _ => .error ("TypeError: the JSON object must be str")
    else
      pure (.dict [("status", .str ("error")),
                   ("message", .str ("No content in response"))])
  | _ =>
    pure (.dict [("status", .str ("error")),
                 ("message", .str ("No content in response"))])

/-! ## Page fingerprints (§3 PageFingerprint, `_get_page_fingerprint` and the
helpers it calls, lines 1181-1256) -/

/-- The fingerprint dict built by `_get_page_fingerprint` (lines 1191-1205).
A fingerprint value is either this record (the success path) or the empty
dict `{}` (any failure), modelled as `Option PageFingerprint` with `none`
standing for `{}`. -/
structure PageFingerprint where
  source_length : Nat
  source_hash : Int
  element_count : Nat
  form_count : Nat
  button_count : Nat
  link_count : Nat
  input_count : Nat
  title : String
  has_forms : Bool
  has_navigation : Bool
  unique_ids : List String
  unique_classes : List String
  text_snippets : List String
deriving DecidableEq, Repr

/-- `_count_elements` (lines 1215-1220): the number of opening-tag matches of
the pattern `<[^/!][^>]*>` in the page source. -/
def count_elements (env : PyEnv) (page_source : String) : Nat :=
  (env.re_findall ("<[^/!][^>]*>") page_source).length

/-- Python's `list(set(xs))`.  CPython's set iteration order is unspecified;
it is modelled as first-occurrence deduplication.  Every verified claim is
insensitive to the order of these lists (`_did_page_change` re-applies
`set(...)` to them before comparing). -/
def pyListSet (xs : List String) : List String :=
  xs.dedup

/-- `_extract_unique_ids` (lines 1222-1226). -/
def extract_unique_ids (env : PyEnv) (page_source : String) : List String :=
  (pyListSet (env.re_findall ("id=[\"\\']([^\"\\']+)[\"\\']") page_source)).take 10

/-- `_extract_unique_classes` (lines 1228-1235): every class attribute is
split on whitespace and the union is deduplicated and capped at 10. -/
def extract_unique_classes (env : PyEnv) (page_source : String) : List String :=
  let classes := env.re_findall ("class=[\"\\']([^\"\\']+)[\"\\']") page_source
  let all_classes := classes.foldl (fun acc c => acc ++ pySplitWs c) []
  (pyListSet (all_classes.filter (fun w => w ≠ ""))).take 10

/-- Python `str.isdigit` restricted to ASCII. -/
def pyIsDigit (s : String) : Bool :=
  s ≠ "" && s.data.all Char.isDigit

/-- Python `str.isalnum` restricted to ASCII. -/
def pyIsAlnum (s : String) : Bool :=
  s ≠ "" && s.data.all Char.isAlphanum

/-- `_extract_text_snippets` (lines 1237-1250): strip scripts, styles and
tags, split into words, keep alphanumeric words longer than 2 characters
that are not all digits, capped at 20. -/
def extract_text_snippets (env : PyEnv) (page_source : String) : List String :=
  let clean₁ := env.re_sub ("<script[^>]*>.*?</script>") ("") page_source
  let clean₂ := env.re_sub ("<style[^>]*>.*?</style>") ("") clean₁
  let text_content := env.re_sub ("<[^>]+>") (" ") clean₂
  let words := (text_content.split Char.isWhitespace).filter (fun w => w ≠ "")
  (words.filter (fun w => w.length > 2 && !pyIsDigit w && pyIsAlnum w)).take 20

/-- `_extract_title` (lines 1252-1256). -/
def extract_title (env : PyEnv) (page_source : String) : String :=
  match env.re_search1 ("<title[^>]*>([^<]+)</title>") page_source with
  | Option.some t => pyStrip t
  | Option.none => ""

/-- The fingerprint record built at lines 1191-1205 from a page-source
string (the pure tail of `_get_page_fingerprint` after the backend call). -/
def fingerprint_of_source (env : PyEnv) (page_source : String) : PageFingerprint :=
  let lower := pyLower page_source
  { source_length := page_source.length
    source_hash := env.py_hash page_source
    element_count := count_elements env page_source
    form_count := countSubstr lower ("<form")
    button_count := countSubstr lower ("<button") + countSubstr lower ("type=\"submit\"")
    link_count := countSubstr lower ("<a href")
    input_count := countSubstr lower ("<input")
    title := extract_title env page_source
    has_forms := strContains lower ("<form")
    has_navigation := strContains lower ("nav") || strContains lower ("menu")
      || strContains lower ("header")
    unique_ids := extract_unique_ids env page_source
    unique_classes := extract_unique_classes env page_source
    text_snippets := extract_text_snippets env page_source }

/-- Size of the set difference `set a - set b` of two Python string lists. -/
def setDiffCard (a b : List String) : Nat :=
  ((a.dedup).filter (fun x => !b.contains x)).length

/-- Size of the symmetric difference `set a ^ set b`. -/
def setSymmDiffCard (a b : List String) : Nat :=
  setDiffCard a b + setDiffCard b a

/-! ## The client's effect model

Every backend interaction goes through `call_tool`; the transport is
modelled as a stream of response values consumed in order (the client is
single-threaded and each request is awaited before the next).  A client
computation transforms the mutable client state and the response stream,
may raise (Python exceptions are `Except.error`), and records the trace of
backend calls it makes. -/

/-- One backend tool invocation, as recorded in the trace. -/
structure Call where
  tool : String
  args : List (String × PyVal)
deriving Repr

/-- The mutable state of `EnhancedMCPClient` relevant to the verified
claims: `element_store`, `last_element_id`, `session_active`,
`current_platform` (lines 14-19). -/
structure ClientState where
  element_store : List (String × PyVal)
  last_element_id : PyVal
  session_active : Bool
  current_platform : PyVal

/-- A client computation: state and response stream in; result (or raised
exception), state, remaining stream and call trace out. -/
def Eff (α : Type) : Type :=
  ClientState → List PyVal → Except String α × ClientState × List PyVal × List Call

instance : Monad Eff where
  pure a := fun st rs => (.ok a, st, rs, [])
  bind m f := fun st rs =>
    match m st rs with
    | (.ok a, st₁, rs₁, t₁) =>
      match f a st₁ rs₁ with
      | (r, st₂, rs₂, t₂) => (r, st₂, rs₂, t₁ ++ t₂)
    | (.error e, st₁, rs₁, t₁) => (.error e, st₁, rs₁, t₁)

/-- Raise a Python exception. -/
def effRaise {α : Type} (msg : String) : Eff α :=
  fun st rs => (.error msg, st, rs, [])

/-- Python `try`/`except`: state changes, consumed responses and the trace
made before the exception are kept, then the handler runs. -/
def tryE {α : Type} (m : Eff α) (handler : String → Eff α) : Eff α :=
  fun st rs =>
    match m st rs with
    | (.ok a, st₁, rs₁, t₁) => (.ok a, st₁, rs₁, t₁)
    | (.error e, st₁, rs₁, t₁) =>
      match handler e st₁ rs₁ with
      | (r, st₂, rs₂, t₂) => (r, st₂, rs₂, t₁ ++ t₂)

/-- Lift a pure, possibly-raising computation. -/
def liftE {α : Type} (e : Except String α) : Eff α :=
  fun st rs => (e, st, rs, [])

/-- Read the client state. -/
def getClient : Eff ClientState :=
  fun st rs => (.ok st, st, rs, [])

/-- Mutate the client state. -/
def modifyClient (f : ClientState → ClientState) : Eff Unit :=
  fun st rs => (.ok (), f st, rs, [])

/-- `call_tool` (lines 79-83) viewed through the transport: send the request,
consume the next correlated response.  An exhausted stream models the
transport's "No response from MCP server" exception (line 41). -/
def call_tool (tool : String) (args : List (String × PyVal)) : Eff PyVal :=
  fun st rs =>
    match rs with
    | [] => (.error ("No response from MCP server"), st, [], [⟨tool, args⟩])
    | r :: rest => (.ok r, st, rest, [⟨tool, args⟩])

/-- The pure tail of `_is_web_context` (lines 803-810) after its single
backend call: parse the result (a raise here is caught by the method's
`except: pass; return False`, as is the `TypeError` on a truthy non-string
page source), and look for an HTML marker. -/
def web_context_of_result (env : PyEnv) (r : PyVal) : Bool :=
  match parse_tool_result env r with
  | .error _ => false
  | .ok parsed =>
    match pyGetE parsed "status" with
    | .error _ => false
    | .ok status =>
      if status == PyVal.str ("success") then
        match pyGetDE parsed "page_source" (PyVal.str ("")) with
        | .ok (.str s) => strContains s ("<html") || strContains s ("<body")
        | _ => false
      else false

/-- `_is_web_context` (lines 799-810): a page source containing an HTML
marker signals a web view; any exception (including a transport failure of
the backend call itself) yields `False`. -/
def is_web_context (env : PyEnv) : Eff Bool :=
  tryE (do
    let r ← call_tool ("appium_get_page_source") [("full", PyVal.bool false)]
    pure (web_context_of_result env r))
  (fun _ => pure false)

/-- The pure tail of `_get_page_fingerprint` (lines 1185-1213) after its
single backend call: every failure (parse raise, backend error status,
`TypeError` on a non-string page source) is caught by the method's
`except` and falls to `return {}`, modelled `Option.none`. -/
def page_fingerprint_of_result (env : PyEnv) (r : PyVal) : Option PageFingerprint :=
  match parse_tool_result env r with
  | .error _ => Option.none
  | .ok parsed =>
    match pyGetE parsed "status" with
    | .error _ => Option.none
    | .ok status =>
      if status == PyVal.str ("success") then
        match pyGetDE parsed "page_source" (PyVal.str ("")) with
        | .ok (.str s) => Option.some (fingerprint_of_source env s)
        | _ => Option.none
      else Option.none

/-- `_get_page_fingerprint` (lines 1181-1213): one page-source call, then a
pure fingerprint computation; every failure path (backend error status,
non-string page source, any exception — including a transport failure of
the call itself) returns the empty dict, modelled `Option.none`. -/
def get_page_fingerprint (env : PyEnv) : Eff (Option PageFingerprint) :=
  tryE (do
    let r ← call_tool ("appium_get_page_source") [("full", PyVal.bool false)]
    pure (page_fingerprint_of_result env r))
  (fun _ => pure Option.none)

/-- `_did_page_change` (lines 1258-1317): the page-change decision over a
before/after fingerprint pair; `Option.none` models the empty dict `{}`
(falsy, so the guard at lines 1261-1263 returns `False`).  The float
comparison `abs(bc-ac)/bc > 0.1` is modelled exactly over `ℚ`. -/
def did_page_change (before after : Option PageFingerprint) : Bool :=
  match before, after with
  | Option.some b, Option.some a =>
    -- Check 1: content hash
    if b.source_hash ≠ a.source_hash then true
    -- Check 2: element count changed by more than 10%
    else if b.element_count > 0 ∧
        ((Int.natAbs ((b.element_count : Int) - (a.element_count : Int)) : ℚ)
          / (b.element_count : ℚ) > 1 / 10) then true
    -- Check 3: title
    else if b.title ≠ a.title then true
    -- Check 4: form count
    else if b.form_count ≠ a.form_count then true
    -- Check 5: button count differs by more than 2
    else if Int.natAbs ((b.button_count : Int) - (a.button_count : Int)) > 2 then true
    -- Check 6: unique ids: more than 2 new or more than 2 removed
    else if setDiffCard a.unique_ids b.unique_ids > 2
        || setDiffCard b.unique_ids a.unique_ids > 2 then true
    -- Check 7: more than 5 text snippets in the symmetric difference
    else if setSymmDiffCard b.text_snippets a.text_snippets > 5 then true
    else false
  | _, _ => false

/-! ## Tap with verification (§4.5, `smart_tap_element` lines 473-526 and
`_try_alternative_tap_methods` lines 1320-1422) -/

/-- The fixed list of placeholder element-id sentinels recognised as "use
the last found element" (lines 477-488; the same list is repeated in
`smart_get_text` and `smart_input_text`). -/
def invalid_patterns : List PyVal :=
  [.str ("element_id_from_previous_step"),
   .str ("previous_element_id"),
   .str ("found_element_id"),
   .str ("current_element_id"),
   .str ("last_element_id"),
   .str ("element_from_previous_step"),
   .str ("previous_element"),
   .none,
   .str (""),
   .str ("null")]

/-- The element-id resolution prologue duplicated at the top of
`smart_tap_element`, `smart_get_text` and `smart_input_text`: a sentinel or
falsy id is replaced by `self.last_element_id`. -/
def resolve_element_id (element_id : PyVal) : Eff PyVal := do
  let st ← getClient
  if invalid_patterns.contains element_id then pure st.last_element_id
  else if !pyTruthy element_id then pure st.last_element_id
  else pure element_id

/-- `_try_javascript_alternatives` (lines 1380-1382) delegates to
`self._try_javascript_click`, which is defined nowhere in the class, so the
call raises `AttributeError`. -/
def try_javascript_alternatives (_element_id : PyVal) : Eff PyVal :=
  effRaise ("AttributeError: EnhancedMCPClient has no try-javascript-click attribute")

/-- `_find_and_tap_alternatives` (lines 1384-1422) first calls
`self._get_element_info`, which is defined nowhere in the class, so the
call raises `AttributeError` before reaching the rest of its body. -/
def find_and_tap_alternatives (_element_id : PyVal) : Eff PyVal :=
  effRaise ("AttributeError: EnhancedMCPClient has no get-element-info attribute")

/-- `_try_alternative_tap_methods` (lines 1320-1378): the four alternate tap
strategies in fixed order, each accepted only when the backend reports
success and the fingerprint diff confirms a change.  Method 1 is not
guarded by `try`/`except`; methods 2-4 are. -/
def try_alternative_tap_methods (env : PyEnv) (element_id : PyVal)
    (original_fingerprint : Option PageFingerprint) : Eff PyVal := do
  -- Method 1: JavaScript click (web contexts only)
  let web ← is_web_context env
  let m1 ← if web then do
      let js_result ← try_javascript_alternatives element_id
      let status ← liftE (pyGetE js_result "status")
      if status == PyVal.str ("success") then do
        let new_fingerprint ← get_page_fingerprint env
        if did_page_change original_fingerprint new_fingerprint then
          pure (Option.some js_result)
        else pure Option.none
      else pure Option.none
    else pure Option.none
  match m1 with
  | Option.some r => pure r
  | Option.none => do
    -- Method 2: double tap
    let m2 ← tryE (do
        let _ ← call_tool ("appium_tap_element") [("element_id", element_id)]
        let r ← call_tool ("appium_tap_element") [("element_id", element_id)]
        let parsed ← liftE (parse_tool_result env r)
        let status ← liftE (pyGetE parsed "status")
        if status == PyVal.str ("success") then do
          let new_fingerprint ← get_page_fingerprint env
          if did_page_change original_fingerprint new_fingerprint then
            pure (Option.some (PyVal.dict [("status", .str ("success")),
              ("message", .str ("Double tap successful"))]))
          else pure Option.none
        else pure Option.none)
      (fun _ => pure Option.none)
    match m2 with
    | Option.some r => pure r
    | Option.none => do
      -- Method 3: scroll up and retry the tap
      let m3 ← tryE (do
          let _ ← call_tool ("appium_scroll") [("direction", .str ("up"))]
          let r ← call_tool ("appium_tap_element") [("element_id", element_id)]
          let parsed ← liftE (parse_tool_result env r)
          let status ← liftE (pyGetE parsed "status")
          if status == PyVal.str ("success") then do
            let new_fingerprint ← get_page_fingerprint env
            if did_page_change original_fingerprint new_fingerprint then
              pure (Option.some (PyVal.dict [("status", .str ("success")),
                ("message", .str ("Scroll and tap successful"))]))
            else pure Option.none
          else pure Option.none)
        (fun _ => pure Option.none)
      match m3 with
      | Option.some r => pure r
      | Option.none => do
        -- Method 4: find and tap an alternative element with the same text
        let m4 ← tryE (do
            let alt_result ← find_and_tap_alternatives element_id
            let status ← liftE (pyGetE alt_result "status")
            if status == PyVal.str ("success") then do
              let new_fingerprint ← get_page_fingerprint env
              if did_page_change original_fingerprint new_fingerprint then
                pure (Option.some alt_result)
              else pure Option.none
            else pure Option.none)
          (fun _ => pure Option.none)
        match m4 with
        | Option.some r => pure r
        | Option.none =>
          pure (PyVal.dict [("status", .str ("error")),
            ("message", .str ("All alternative tap methods failed"))])

/-- `smart_tap_element` (lines 473-526): resolve the element id, fingerprint
the page, tap, and verify; a backend tap failure is returned as-is, before
any after-fingerprint or alternative method. -/
def smart_tap_element (env : PyEnv) (element_id : PyVal) : Eff PyVal := do
  let eid ← resolve_element_id element_id
  if !pyTruthy eid then
    pure (PyVal.dict [("status", .str ("error")),
      ("message", .str ("No element ID available for tap"))])
  else do
    -- STEP 1: fingerprint before the tap
    let fingerprint_before ← get_page_fingerprint env
    -- STEP 2: the standard tap
    let r ← call_tool ("appium_tap_element") [("element_id", eid)]
    let parsed ← liftE (parse_tool_result env r)
    let status ← liftE (pyGetE parsed "status")
    if status != PyVal.str ("success") then
      pure parsed
    else do
      -- STEP 3: fingerprint after the tap and the change check
      let fingerprint_after ← get_page_fingerprint env
      if did_page_change fingerprint_before fingerprint_after then
        pure (PyVal.dict [("status", .str ("success")),
          ("message", .str ("Standard tap successful"))])
      else
        -- STEP 4: alternative strategies
        try_alternative_tap_methods env eid fingerprint_before

/-! ## Stale-element recovery (§4.6, `smart_get_text` lines 528-588 and the
three recovery strategies, lines 590-724) -/

/-- The failure dict shared by the fall-through paths of
`recover_name_cell_text`. -/
def name_cell_recovery_failed : PyVal :=
  .dict [("status", .str ("error")), ("message", .str ("Name cell recovery failed"))]

/-- `recover_name_cell_text` (lines 590-627), recovery strategy 1: re-locate
the "Name" cell by accessibility id, read its text, and accept any truthy
text whose strip is not the literal label `"Name"`. -/
def recover_name_cell_text (env : PyEnv) : Eff PyVal :=
  tryE (do
    let find_result ← call_tool ("appium_find_element")
      [("strategy", .str ("accessibility_id")), ("value", .str ("Name"))]
    let parsed_find ← liftE (parse_tool_result env find_result)
    let status ← liftE (pyGetE parsed_find "status")
    if status == PyVal.str ("success") then do
      let name_element_id ← liftE (pyGetE parsed_find "element_id")
      let text_result ← call_tool ("appium_get_text") [("element_id", name_element_id)]
      let parsed_text ← liftE (parse_tool_result env text_result)
      let status₂ ← liftE (pyGetE parsed_text "status")
      if status₂ == PyVal.str ("success") then do
        let text ← liftE (pyGetDE parsed_text "text" (PyVal.str ("")))
        -- `if text and text.strip() != "Name"`; `.strip()` on a truthy
        -- non-string raises, caught by the handler below
        if pyTruthy text then
          match text with
          | .str t =>
            if pyStrip t ≠ "Name" then
              pure (PyVal.dict [("status", .str ("success")), ("text", .str t),
                ("message", .str ("Recovered text via Name cell: " ++ t)),
                ("method", .str ("name_cell_recovery"))])
            else pure name_cell_recovery_failed
          | _ => effRaise ("AttributeError: object has no attribute strip")
        else pure name_cell_recovery_failed
      else pure name_cell_recovery_failed
    else pure name_cell_recovery_failed)
  (fun e => pure (PyVal.dict [("status", .str ("error")),
    ("message", .str ("Name cell recovery failed: " ++ e))]))

/-- The fixed ordered list of structural xpath patterns of
`recover_text_via_xpath` (lines 634-639). -/
def xpath_strategies : List String :=
  ["//XCUIElementTypeCell[@name='Name']//XCUIElementTypeStaticText[2]",
   "//XCUIElementTypeStaticText[@name='Name']/following-sibling::XCUIElementTypeStaticText[1]",
   "//XCUIElementTypeCell[.//XCUIElementTypeStaticText[@name='Name']]//XCUIElementTypeStaticText[position()>1]",
   "//*[@name='Name']/..//XCUIElementTypeStaticText[not(@name='Name')]"]

/-- The per-xpath loop body of `recover_text_via_xpath` (lines 641-671):
each iteration is its own `try`/`except continue`. -/
def recover_xpath_loop (env : PyEnv) : List String → Eff (Option PyVal)
  | [] => pure Option.none
  | xpath :: rest => do
    let res ← tryE (do
        let find_result ← call_tool ("appium_find_element")
          [("strategy", .str ("xpath")), ("value", .str xpath)]
        let parsed_find ← liftE (parse_tool_result env find_result)
        let status ← liftE (pyGetE parsed_find "status")
        if status == PyVal.str ("success") then do
          let xpath_element_id ← liftE (pyGetE parsed_find "element_id")
          let text_result ← call_tool ("appium_get_text") [("element_id", xpath_element_id)]
          let parsed_text ← liftE (parse_tool_result env text_result)
          let status₂ ← liftE (pyGetE parsed_text "status")
          if status₂ == PyVal.str ("success") then do
            let text ← liftE (pyGetDE parsed_text "text" (PyVal.str ("")))
            -- `if text and text.strip() and text.strip() != "Name"`
            if pyTruthy text then
              match text with
              | .str t =>
                if pyStrip t ≠ "" ∧ pyStrip t ≠ "Name" then
                  pure (Option.some (PyVal.dict [("status", .str ("success")),
                    ("text", .str t),
                    ("message", .str ("Recovered text via XPath: " ++ t)),
                    ("method", .str ("xpath_recovery")),
                    ("xpath_used", .str xpath)]))
                else pure Option.none
              | _ => effRaise ("AttributeError: object has no attribute strip")
            else pure Option.none
          else pure Option.none
        else pure Option.none)
      (fun _ => pure Option.none)
    match res with
    | Option.some d => pure (Option.some d)
    | Option.none => recover_xpath_loop env rest

/-- `recover_text_via_xpath` (lines 629-677), recovery strategy 2. -/
def recover_text_via_xpath (env : PyEnv) : Eff PyVal :=
  tryE (do
    let res ← recover_xpath_loop env xpath_strategies
    match res with
    | Option.some d => pure d
    | Option.none => pure (PyVal.dict [("status", .str ("error")),
        ("message", .str ("All XPath strategies failed"))]))
  (fun e => pure (PyVal.dict [("status", .str ("error")),
    ("message", .str ("XPath recovery failed: " ++ e))]))

/-- The regex patterns of `recover_text_via_page_source` (lines 694-699). -/
def page_source_patterns : List String :=
  ["name=[\"\\']Name[\"\\'][^>]*>.*?name=[\"\\']([^\"\\']+)[\"\\']",
   "label=[\"\\']Name[\"\\'][^>]*>.*?value=[\"\\']([^\"\\']+)[\"\\']",
   "<[^>]*name=[\"\\']Name[\"\\'][^>]*>.*?<[^>]*>([^<]+)</[^>]*>",
   "Name.*?<[^>]*>([^<]+)</[^>]*>"]

/-- The pattern loop of `recover_text_via_page_source` (lines 701-718): the
first pattern whose first group, stripped, is non-empty and not `"Name"`
wins. -/
def page_source_recovery_scan (env : PyEnv) (page_source : String) :
    List String → Option PyVal
  | [] => Option.none
  | pattern :: rest =>
    match env.re_search1 pattern page_source with
    | Option.some g =>
      let found_text := pyStrip g
      if found_text ≠ "" ∧ found_text ≠ "Name" then
        Option.some (PyVal.dict [("status", .str ("success")),
          ("text", .str found_text),
          ("message", .str ("Recovered text via page source: " ++ found_text)),
          ("method", .str ("page_source_recovery")),
          ("pattern_used", .str pattern)])
      else page_source_recovery_scan env page_source rest
    | Option.none => page_source_recovery_scan env page_source rest

/-- `recover_text_via_page_source` (lines 679-724), recovery strategy 3:
re-fetch the page source and scan it with the regex patterns. -/
def recover_text_via_page_source (env : PyEnv) : Eff PyVal :=
  tryE (do
    let page_result ← call_tool ("appium_get_page_source") [("full", PyVal.bool false)]
    let parsed_page ← liftE (parse_tool_result env page_result)
    let status ← liftE (pyGetE parsed_page "status")
    if status == PyVal.str ("success") then do
      let source ← liftE (pyGetDE parsed_page "page_source" (PyVal.str ("")))
      match source with
      | .str s =>
        match page_source_recovery_scan env s page_source_patterns with
        | Option.some d => pure d
        | Option.none => pure (PyVal.dict [("status", .str ("error")),
            ("message", .str ("Page source parsing failed"))])
      | _ => effRaise ("TypeError: expected string or bytes-like object")
    else pure (PyVal.dict [("status", .str ("error")),
      ("message", .str ("Page source parsing failed"))]))
  (fun e => pure (PyVal.dict [("status", .str ("error")),
    ("message", .str ("Page source recovery failed: " ++ e))]))

/-- `smart_get_text` (lines 528-588): read the element's text; when the
result is an error mentioning `StaleElementReferenceException`, run the
three recovery strategies in fixed order, stopping at the first success. -/
def smart_get_text (env : PyEnv) (element_id : PyVal) : Eff PyVal := do
  let eid ← resolve_element_id element_id
  if !pyTruthy eid then
    pure (PyVal.dict [("status", .str ("error")),
      ("message", .str ("No element ID available for get text"))])
  else do
    let r ← call_tool ("appium_get_text") [("element_id", eid)]
    let parsed ← liftE (parse_tool_result env r)
    -- `parsed_result.get("status") == "error" and
    --  "StaleElementReferenceException" in str(parsed_result.get("message", ""))`
    let status ← liftE (pyGetE parsed "status")
    let stale ← if status == PyVal.str ("error") then do
        let msg ← liftE (pyGetDE parsed "message" (PyVal.str ("")))
        pure (strContains (pyStr msg) ("StaleElementReferenceException"))
      else pure false
    if stale then do
      -- STRATEGY 1: the Name cell
      let recovery_result ← recover_name_cell_text env
      let s₁ ← liftE (pyGetE recovery_result "status")
      if s₁ == PyVal.str ("success") then pure recovery_result
      else do
        -- STRATEGY 2: xpath-based recovery
        let xpath_result ← recover_text_via_xpath env
        let s₂ ← liftE (pyGetE xpath_result "status")
        if s₂ == PyVal.str ("success") then pure xpath_result
        else do
          -- STRATEGY 3: page-source parsing
          let page_source_result ← recover_text_via_page_source env
          let s₃ ← liftE (pyGetE page_source_result "status")
          if s₃ == PyVal.str ("success") then pure page_source_result
          else
            pure (PyVal.dict [("status", .str ("error")),
              ("message", .str ("Element became stale and recovery strategies failed. The UI may have changed significantly.")),
              ("error_type", .str ("StaleElementReferenceException")),
              ("recovery_attempted", .bool true)])
    else pure parsed

/-- `quit_session` (lines 790-797): one backend call, then the state
mutations `session_active = False`, `current_platform = None`,
`element_store.clear()` — and nothing else — before parsing the result. -/
def quit_session (env : PyEnv) : Eff PyVal := do
  let r ← call_tool ("appium_quit_session") []
  modifyClient (fun st =>
    { st with session_active := false, current_platform := PyVal.none,
              element_store := [] })
  liftE (parse_tool_result env r)

/-! ## Element Resolver candidate generation and trial (§4.3 steps 4-5,
`_find_element_candidates` lines 415-437 and `_try_element_candidates`
lines 439-471).  An element descriptor is the dict produced by the snapshot
extractor, modelled as its association list. -/

/-- `str(element.get(k) or '').lower().strip()`: the normalisation applied
to the `text`, `accessibility_id` and `label` fields of a descriptor. -/
def field_lower_strip (element : List (String × PyVal)) (k : String) : String :=
  pyStrip (pyLower (pyStr (if pyTruthy (dictGetD element k) then dictGetD element k
          else PyVal.str (""))))

/-- The loop body of `_find_element_candidates` (lines 420-435): append the
element as an "exact" candidate on full-field equality, as a "contains"
candidate on a substring hit, or skip it. -/
def find_candidates_step (target_lower : String)
    (candidates : List (String × List (String × PyVal)))
    (element : List (String × PyVal)) : List (String × List (String × PyVal)) :=
  let element_text := field_lower_strip element "text"
  let accessibility_id := field_lower_strip element "accessibility_id"
  let label := field_lower_strip element "label"
  if element_text = target_lower ∨ accessibility_id = target_lower ∨
      label = target_lower then
    candidates ++ [("exact", element)]
  else if strContains element_text target_lower ∨
      strContains accessibility_id target_lower ∨
      strContains label target_lower then
    candidates ++ [("contains", element)]
  else candidates

/-- `_find_element_candidates` (lines 415-437): one pass over the
descriptors in their original order, appending `("exact", e)` on full-field
equality with the lowercased trimmed target, else `("contains", e)` on a
substring hit. -/
def find_element_candidates (elements : List (List (String × PyVal)))
    (target_text : String) : List (String × List (String × PyVal)) :=
  elements.foldl (find_candidates_step (pyStrip (pyLower target_text))) []

/-- The per-descriptor tier decision of `_find_element_candidates`, as a
single classification function (used to state that candidate generation is
an order-preserving classification of the input list). -/
def cand_tag (target_lower : String) (element : List (String × PyVal)) :
    Option (String × List (String × PyVal)) :=
  let element_text := field_lower_strip element "text"
  let accessibility_id := field_lower_strip element "accessibility_id"
  let label := field_lower_strip element "label"
  if element_text = target_lower ∨ accessibility_id = target_lower ∨
      label = target_lower then
    Option.some ("exact", element)
  else if strContains element_text target_lower ∨
      strContains accessibility_id target_lower ∨
      strContains label target_lower then
    Option.some ("contains", element)
  else Option.none

/-- Whether a candidate list tries every "exact" candidate before any
"contains" candidate: once a "contains" appears, no "exact" may follow. -/
def tier_ordered : List (String × List (String × PyVal)) → Bool
  | [] => true
  | (tier, _) :: rest =>
    if tier = "contains" then
      rest.all (fun c => c.1 ≠ "exact") && tier_ordered rest
    else tier_ordered rest

/-- The inner strategy loop of `_try_element_candidates` (lines 445-469):
for one candidate, try accessibility-id, xpath, id, class-name in order,
skipping blank values; each attempt's exceptions are swallowed.  A success
records `last_element_id`. -/
def try_strategies_loop (env : PyEnv) :
    List (String × PyVal) → Eff (Option (PyVal × PyVal))
  | [] => pure Option.none
  | (strategy, value) :: rest => do
    if pyTruthy value ∧ pyStrip (pyStr value) ≠ "" then do
      let res ← tryE (do
          let r ← call_tool ("appium_find_element")
            [("strategy", .str strategy), ("value", .str (pyStr value))]
          let parsed ← liftE (parse_tool_result env r)
          let status ← liftE (pyGetE parsed "status")
          if status == PyVal.str ("success") then do
            let element_id ← liftE (pyGetE parsed "element_id")
            if pyTruthy element_id then do
              modifyClient (fun st => { st with last_element_id := element_id })
              pure (Option.some (element_id, parsed))
            else pure Option.none
          else pure Option.none)
        (fun _ => pure Option.none)
      match res with
      | Option.some x => pure (Option.some x)
      | Option.none => try_strategies_loop env rest
    else try_strategies_loop env rest

/-- The outer candidate loop of `_try_element_candidates` (line 441):
candidates are tried in the order of the list. -/
def try_candidates_loop (env : PyEnv) :
    List (String × List (String × PyVal)) → Eff (Option (PyVal × PyVal))
  | [] => pure Option.none
  | (_match_type, element) :: rest => do
    let strategies :=
      [("accessibility_id", dictGetD element "accessibility_id"),
       ("xpath", dictGetD element "xpath"),
       ("id", dictGetD element "id"),
       ("class_name", dictGetD element "class_name")]
    let res ← try_strategies_loop env strategies
    match res with
    | Option.some x => pure (Option.some x)
    | Option.none => try_candidates_loop env rest

/-- `_try_element_candidates` (lines 439-471). -/
def try_element_candidates (env : PyEnv)
    (candidates : List (String × List (String × PyVal)))
    (target_text : String) : Eff (PyVal × PyVal) := do
  let res ← try_candidates_loop env candidates
  match res with
  | Option.some (element_id, parsed) => pure (element_id, parsed)
  | Option.none =>
    pure (PyVal.none, PyVal.dict [("status", .str ("error")),
      ("message", .str ("Could not find element '" ++ target_text ++ "' with any strategy"))])

/-! ## Session-argument normalization (§4.1, `normalize_app_identifier`
lines 95-214) -/

/-- The iOS table of `common_apps` (lines 100-120). -/
def common_apps_ios : List (String × String) :=
  [("settings", "com.apple.Preferences"),
   ("safari", "com.apple.mobilesafari"),
   ("notes", "com.apple.mobilenotes"),
   ("photos", "com.apple.mobileslideshow"),
   ("messages", "com.apple.MobileSMS"),
   ("phone", "com.apple.mobilephone"),
   ("calculator", "com.apple.calculator"),
   ("calendar", "com.apple.mobilecal"),
   ("contacts", "com.apple.MobileAddressBook"),
   ("music", "com.apple.Music"),
   ("maps", "com.apple.Maps"),
   ("weather", "com.apple.weather"),
   ("clock", "com.apple.mobiletimer"),
   ("reminder", "com.apple.reminders"),
   ("mail", "com.apple.mobilemail"),
   ("files", "com.apple.DocumentsApp"),
   ("facetime", "com.apple.facetime"),
   ("podcasts", "com.apple.podcasts")]

/-- The Android table of `common_apps` (lines 121-134). -/
def common_apps_android : List (String × String) :=
  [("settings", "com.android.settings"),
   ("chrome", "com.android.chrome"),
   ("contacts", "com.android.contacts"),
   ("phone", "com.android.dialer"),
   ("messages", "com.google.android.apps.messaging"),
   ("gallery", "com.google.android.apps.photos"),
   ("calculator", "com.google.android.calculator"),
   ("calendar", "com.google.calendar"),
   ("gmail", "com.google.android.gm"),
   ("maps", "com.google.android.apps.maps"),
   ("youtube", "com.google.android.youtube"),
   ("play", "com.android.vending")]

/-- `.lower()` on a Python value: only strings have the attribute. -/
def pyLowerE : PyVal → Except String String
  | .str s => .ok (pyLower s)
  | _ => .error ("AttributeError: object has no attribute lower")

/-- `re.sub(r'([A-Z])', r'_\\1', field).lower()` (line 181): insert an
underscore before each uppercase letter, then lowercase. -/
def camel_to_snake (field : String) : String :=
  pyLower (String.mk (field.data.foldr
    (fun c acc => if c.isUpper then '_' :: c :: acc else c :: acc) []))

/-- `d[k] = v` on a Python dict: replace in place when the key exists,
append otherwise. -/
def dictSet (kvs : List (String × PyVal)) (k : String) (v : PyVal) :
    List (String × PyVal) :=
  if (kvs.lookup k).isSome then
    kvs.map (fun kv => if kv.1 = k then (kv.1, v) else kv)
  else kvs ++ [(k, v)]

/-- The app-identifier key scan of `normalize_app_identifier`
(lines 137-155): the fixed key list is scanned in order, each truthy value
classified as bundle-id-like, path-like, or a bare app name; later keys
overwrite earlier classifications of the same kind.  Returns
`(app_name, bundle_id, app_path)`. -/
def classify_app_keys (app_info : List (String × PyVal)) :
    Option String × Option PyVal × Option PyVal :=
  ["app", "bundle_id", "bundleId", "app_package", "appPackage",
   "app_path", "appPath"].foldl
    (fun acc key =>
      match app_info.lookup key with
      | Option.some v =>
        if pyTruthy v then
          let value := pyStrip (pyLower (pyStr v))
          if strContains value "." ∧ (strStartsWith value ("com.") ∨
              strStartsWith value ("org.") ∨ strStartsWith value ("io.")) then
            (acc.1, Option.some v, acc.2.2)
          else if strEndsWith value (".app") ∨ strContains value "/" then
            (acc.1, acc.2.1, Option.some v)
          else (Option.some value, acc.2.1, acc.2.2)
        else acc
      | Option.none => acc)
    (Option.none, Option.none, Option.none)

/-- `normalize_app_identifier` (lines 95-214). -/
def normalize_app_identifier (app_info : List (String × PyVal)) :
    Except String (List (String × PyVal)) := do
  let platform ← pyLowerE (match app_info.lookup "platform" with
    | Option.some v => v
    | Option.none => PyVal.str (""))
  let (app_name, bundle_id₀, app_path) := classify_app_keys app_info
  -- `if app_name and not bundle_id and platform in common_apps`
  let bundle_id : Option PyVal :=
    match app_name, bundle_id₀ with
    | Option.some n, Option.none =>
      if n ≠ "" ∧ (platform = "ios" ∨ platform = "android") then
        match (if platform = "ios" then common_apps_ios
               else common_apps_android).lookup n with
        | Option.some b => Option.some (PyVal.str b)
        | Option.none => Option.none
      else Option.none
    | _, b => b
  -- the base normalized dict (lines 162-165)
  let normalized : List (String × PyVal) :=
    [("platform", dictGetD app_info "platform"),
     ("device_name",
       let d := dictGetD app_info "device_name"
       if pyTruthy d then d else dictGetD app_info "deviceName")]
  -- platform version (lines 168-169)
  let normalized :=
    if pyTruthy (dictGetD app_info "platform_version") ∨
        pyTruthy (dictGetD app_info "platformVersion") then
      dictSet normalized "platform_version"
        (let v := dictGetD app_info "platform_version"
         if pyTruthy v then v else dictGetD app_info "platformVersion")
    else normalized
  -- optional field copy-through with snake_case renaming (lines 172-182)
  let normalized :=
    ["app_activity", "appActivity", "start_url", "startUrl",
     "udid", "xcode_org_id", "xcodeOrgId", "wda_bundle_id", "wdaBundleId",
     "xcode_signing_id", "xcodeSigningId"].foldl
      (fun n field =>
        match app_info.lookup field with
        | Option.some v =>
          if pyTruthy v then dictSet n (camel_to_snake field) v else n
        | Option.none => n)
      normalized
  -- platform-specific app identifier (lines 184-213)
  let normalized :=
    if platform = "ios" then
      match bundle_id with
      | Option.some b =>
        if pyBeq b (PyVal.str ("com.apple.mobilesafari")) then
          -- Safari special case: send the bundle id only with real-device
          -- indicators present (key membership, not truthiness)
          if ["udid", "xcode_org_id", "wda_bundle_id"].any
              (fun k => (app_info.lookup k).isSome) then
            dictSet (dictSet normalized "bundle_id" b) "browser_name"
              (PyVal.str ("Safari"))
          else normalized
        else dictSet normalized "bundle_id" b
      | Option.none =>
        match app_path with
        | Option.some p => dictSet normalized "app_path" p
        | Option.none => normalized
    else if platform = "android" then
      match bundle_id with
      | Option.some b =>
        let n₁ := dictSet normalized "app_package" b
        if ¬ pyTruthy (dictGetD app_info "app_activity") ∧
            ¬ pyTruthy (dictGetD app_info "appActivity") then
          dictSet n₁ "app_activity" (PyVal.str (pyStr b ++ ".MainActivity"))
        else n₁
      | Option.none =>
        match app_path with
        | Option.some p => dictSet normalized "app_path" p
        | Option.none => normalized
    else normalized
  pure normalized

/-! ## UI Snapshot Extractor (§4.2, `enhanced_extract_selectors`
lines 240-356).  Retrieval and `ElementTree` parsing of the markup are the
backend / standard-library collaborators; the traversal below is the
repository's `traverse_element`, over an already-parsed XML tree. -/

/-- A parsed XML element: tag, attribute map, direct text content,
children. -/
inductive XMLElem where
  | node (tag : String) (attrib : List (String × String)) (text : Option String)
      (children : List XMLElem)

/-- The tag of an XML element. -/
def XMLElem.tag : XMLElem → String
  | .node t _ _ _ => t

/-- The attributes of an XML element. -/
def XMLElem.attrib : XMLElem → List (String × String)
  | .node _ a _ _ => a

/-- The direct text content of an XML element. -/
def XMLElem.text : XMLElem → Option String
  | .node _ _ t _ => t

/-- The children of an XML element. -/
def XMLElem.children : XMLElem → List XMLElem
  | .node _ _ _ c => c

/-- The structural deny-list of tags (lines 328-331). -/
def structural_tags : List String :=
  ["hierarchy", "android.widget.FrameLayout",
   "XCUIElementTypeApplication", "XCUIElementTypeWindow", "XCUIElementTypeOther"]

/-- The per-node extraction of `traverse_element` (lines 274-337): build the
`element_info` dict in the literal's key order, applying the iOS and
Android attribute rules in source order, decide usefulness, and clean out
`None` and `False` values.  Returns `(clean_element, has_useful_info)`. -/
def element_info_of (elem : XMLElem) : List (String × PyVal) × Bool :=
  let tag := elem.tag
  let attribs := elem.attrib
  -- direct text content
  let text₀ : PyVal :=
    match elem.text with
    | Option.some s => if s ≠ "" ∧ pyStrip s ≠ "" then PyVal.str (pyStrip s) else PyVal.none
    | Option.none => PyVal.none
  -- iOS attributes
  let acc₀ : PyVal := match attribs.lookup "name" with
    | Option.some v => PyVal.str v
    | Option.none => PyVal.none
  let label : PyVal := match attribs.lookup "label" with
    | Option.some v => PyVal.str v
    | Option.none => PyVal.none
  let text₁ := match attribs.lookup "label" with
    | Option.some v => if ¬ pyTruthy text₀ then PyVal.str v else text₀
    | Option.none => text₀
  let text₂ := match attribs.lookup "value" with
    | Option.some v => if ¬ pyTruthy text₁ then PyVal.str v else text₁
    | Option.none => text₁
  let clickable₀ : PyVal := match attribs.lookup "accessible" with
    | Option.some v => PyVal.bool (pyLower v = "true")
    | Option.none => PyVal.bool false
  let enabled₀ : PyVal := match attribs.lookup "enabled" with
    | Option.some v => PyVal.bool (pyLower v = "true")
    | Option.none => PyVal.bool true
  -- Android attributes
  let acc₁ := match attribs.lookup "content-desc" with
    | Option.some v => PyVal.str v
    | Option.none => acc₀
  let rid : PyVal := match attribs.lookup "resource-id" with
    | Option.some v => PyVal.str v
    | Option.none => PyVal.none
  let class_name : PyVal := match attribs.lookup "class" with
    | Option.some v => PyVal.str v
    | Option.none => PyVal.none
  let text₃ := match attribs.lookup "text" with
    | Option.some v => if ¬ pyTruthy text₂ then PyVal.str v else text₂
    | Option.none => text₂
  let clickable₁ := match attribs.lookup "clickable" with
    | Option.some v => PyVal.bool (pyLower v = "true")
    | Option.none => clickable₀
  let enabled₁ := match attribs.lookup "enabled" with
    | Option.some v => PyVal.bool (pyLower v = "true")
    | Option.none => enabled₀
  let xpath : PyVal := PyVal.str ("//" ++ tag)
  let has_useful_info :=
    pyTruthy text₃ || pyTruthy acc₁ || pyTruthy rid || pyTruthy label ||
      (tag ≠ "" && !structural_tags.contains tag)
  let element_info : List (String × PyVal) :=
    [("tag", PyVal.str tag), ("text", text₃), ("accessibility_id", acc₁),
     ("id", rid), ("class_name", class_name), ("xpath", xpath),
     ("clickable", clickable₁), ("enabled", enabled₁), ("label", label)]
  -- `{k: v for k, v in element_info.items() if v is not None and v != False}`
  let clean_element := element_info.filter
    (fun kv => !(pyBeq kv.2 PyVal.none) && !(pyBeq kv.2 (PyVal.bool false)))
  (clean_element, has_useful_info)

mutual
/-- `traverse_element` (lines 269-344): depth-first traversal threading the
collected elements and the count, stopping at `max_elements`. -/
def traverse_element (max_elements : Nat) (elem : XMLElem)
    (acc : List (List (String × PyVal)) × Nat) :
    List (List (String × PyVal)) × Nat :=
  match elem with
  | .node tag attrib text children =>
    if acc.2 ≥ max_elements then acc
    else
      let (clean_element, has_useful_info) :=
        element_info_of (.node tag attrib text children)
      let acc₁ := if has_useful_info then (acc.1 ++ [clean_element], acc.2 + 1)
        else acc
      traverse_children max_elements children acc₁
termination_by sizeOf elem

/-- The child loop of `traverse_element` (lines 341-344), with its
`count >= max_elements` break before each child. -/
def traverse_children (max_elements : Nat) (children : List XMLElem)
    (acc : List (List (String × PyVal)) × Nat) :
    List (List (String × PyVal)) × Nat :=
  match children with
  | [] => acc
  | c :: cs =>
    if acc.2 ≥ max_elements then acc
    else traverse_children max_elements cs (traverse_element max_elements c acc)
termination_by sizeOf children
end

/-- The element list produced by `enhanced_extract_selectors` (lines
265-356) for an already-parsed page source: the traversal started from the
root with an empty accumulator. -/
def enhanced_extract_selectors_elements (max_elements : Nat) (root : XMLElem) :
    List (List (String × PyVal)) :=
  (traverse_element max_elements root ([], 0)).1

/-! ## Concrete instantiations for evaluations -/

/-- A trivial instantiation of the standard-library collaborators (its
`json.loads` always fails to decode). -/
def trivialEnv : PyEnv :=
  { json_loads := fun _ => Option.none
    py_hash := fun _ => 0
    re_findall := fun _ _ => []
    re_search1 := fun _ _ => Option.none
    re_sub := fun _ _ s => s }

/-- The client state right after construction (lines 14-19). -/
def initState : ClientState :=
  { element_store := [], last_element_id := PyVal.none,
    session_active := false, current_platform := PyVal.none }

/-- A well-formed backend envelope whose embedded text is `s`. -/
def envelope (s : String) : PyVal :=
  .dict [("content", .list [.dict [("text", .str s)]])]

/-- The normalized error dict for an absent or falsy `content` field. -/
def no_content_error : PyVal :=
  .dict [("status", .str ("error")), ("message", .str ("No content in response"))]

/-- The normalized error dict for undecodable embedded JSON. -/
def invalid_json_error : PyVal :=
  .dict [("status", .str ("error")), ("message", .str ("Invalid JSON in response"))]

/-- The guard `isinstance(result, dict) and result.get('content')` of
`parse_tool_result` is falsy: a non-dict, or an absent or falsy `content`. -/
def content_falsy (r : PyVal) : Bool :=
  match r with
  | .dict kvs => !pyTruthy (dictGetD kvs "content")
  | _ => true

/-- The embedded text `result['content'][0]['text']` of a well-shaped
envelope: `content` a non-empty list whose head is a dict carrying a string
under `"text"`. -/
def envelope_text (r : PyVal) : Option String :=
  match r with
  | .dict kvs =>
    match dictGetD kvs "content" with
    | .list (first :: _) =>
      match first with
      | .dict fkvs =>
        match fkvs.lookup "text" with
        | Option.some (.str s) => Option.some s
        | _ => Option.none
      | _ => Option.none
    | _ => Option.none
  | _ => Option.none

/-- A descriptor whose text merely contains "login" (used to exhibit the
candidate ordering of `_find_element_candidates` on a concrete snapshot). -/
def c1_contains_descriptor : List (String × PyVal) :=
  [("text", PyVal.str ("xlogin")), ("xpath", PyVal.str ("//a"))]

/-- A descriptor whose text is exactly "login". -/
def c1_exact_descriptor : List (String × PyVal) :=
  [("text", PyVal.str ("login")), ("accessibility_id", PyVal.str ("loginBtn")),
   ("xpath", PyVal.str ("//b"))]

/-- An environment whose `json.loads` decodes the marker text `"R1"` to a
successful find result with element id `"el-1"`. -/
def c1_env : PyEnv :=
  { json_loads := fun s =>
      if s = "R1" then
        Option.some (.dict [("status", .str ("success")),
                            ("element_id", .str ("el-1"))])
      else Option.none
    py_hash := fun _ => 0
    re_findall := fun _ _ => []
    re_search1 := fun _ _ => Option.none
    re_sub := fun _ _ s => s }

/-! ## Helper lemmas -/

/-- The set difference of a list with itself is empty. -/
theorem setDiffCard_self (l : List String) : setDiffCard l l = 0 := by
  unfold setDiffCard
  rw [List.length_eq_zero, List.filter_eq_nil_iff]
  intro a ha
  have hmem : a ∈ l := List.mem_dedup.mp ha
  simp [hmem]

/-- C2: for every page fingerprint `F` — including the empty fingerprint,
modelled `Option.none` — the page-change diff applied to two structurally
identical fingerprints, `_did_page_change(F, F)`, returns false: an
unchanged page never signals a change. -/
theorem c2_did_page_change_identical_is_false (F : Option PageFingerprint) :
    did_page_change F F = false := by
  cases F with
  | none => rfl
  | some b =>
    unfold did_page_change
    simp [setSymmDiffCard, setDiffCard_self]

/-- C10: the page-change diff with a missing operand — the empty dict that
`_get_page_fingerprint` produces whenever retrieving or parsing the page
source fails, modelled `Option.none` — always reports "no page change",
whichever side is missing. -/
theorem c10_missing_fingerprint_reports_no_change (F : Option PageFingerprint) :
    did_page_change Option.none F = false ∧
    did_page_change F Option.none = false := by
  refine ⟨rfl, ?_⟩
  cases F with
  | none => rfl
  | some b => rfl

/-- C7: normalizing `{platform: "ios", app: "safari"}` with no real-device
indicator (udid / xcode_org_id / wda_bundle_id) present omits `bundle_id`
from the output; with `udid` present, the output carries
`bundle_id = "com.apple.mobilesafari"` explicitly. -/
theorem c7_safari_bundle_id_normalization :
    (normalize_app_identifier
        [("platform", PyVal.str ("ios")), ("app", PyVal.str ("safari"))]).map
      (fun out => out.lookup "bundle_id") = .ok Option.none ∧
    (normalize_app_identifier
        [("platform", PyVal.str ("ios")), ("app", PyVal.str ("safari")),
         ("udid", PyVal.str ("00008110-000A2DE80A88801E"))]).map
      (fun out => out.lookup "bundle_id")
      = .ok (Option.some (PyVal.str ("com.apple.mobilesafari"))) := by
  exact ⟨rfl, rfl⟩

/-- C8: normalizing `{platform: "android", app: "com.example.app"}` with no
activity under either key spelling yields `app_package = "com.example.app"`
and the synthesized `app_activity = "com.example.app.MainActivity"`. -/
theorem c8_android_activity_inference :
    (normalize_app_identifier
        [("platform", PyVal.str ("android")), ("app", PyVal.str ("com.example.app"))]).map
      (fun out => (out.lookup "app_package", out.lookup "app_activity"))
      = .ok (Option.some (PyVal.str ("com.example.app")),
             Option.some (PyVal.str ("com.example.app.MainActivity"))) := by
  exact rfl

/-- Unfolding rule for `bind` on `Eff`. -/
theorem bind_run {α β : Type} (m : Eff α) (f : α → Eff β) (st : ClientState)
    (rs : List PyVal) :
    (m >>= f) st rs =
      match m st rs with
      | (.ok a, st₁, rs₁, t₁) =>
        match f a st₁ rs₁ with
        | (r, st₂, rs₂, t₂) => (r, st₂, rs₂, t₁ ++ t₂)
      | (.error e, st₁, rs₁, t₁) => (.error e, st₁, rs₁, t₁) := rfl

/-- Unfolding rule for `pure` on `Eff`. -/
theorem pure_run {α : Type} (a : α) (st : ClientState) (rs : List PyVal) :
    (pure a : Eff α) st rs = (.ok a, st, rs, []) := rfl

/-- Unfolding rule for `tryE`. -/
theorem tryE_run {α : Type} (m : Eff α) (handler : String → Eff α)
    (st : ClientState) (rs : List PyVal) :
    tryE m handler st rs =
      match m st rs with
      | (.ok a, st₁, rs₁, t₁) => (.ok a, st₁, rs₁, t₁)
      | (.error e, st₁, rs₁, t₁) =>
        match handler e st₁ rs₁ with
        | (r, st₂, rs₂, t₂) => (r, st₂, rs₂, t₁ ++ t₂) := rfl

/-- Unfolding rule for `call_tool` on a non-empty stream. -/
theorem call_tool_run_cons (tool : String) (args : List (String × PyVal))
    (st : ClientState) (r : PyVal) (rest : List PyVal) :
    call_tool tool args st (r :: rest) = (.ok r, st, rest, [⟨tool, args⟩]) := rfl

/-- Unfolding rule for `liftE`. -/
theorem liftE_run {α : Type} (e : Except String α) (st : ClientState)
    (rs : List PyVal) : liftE e st rs = (e, st, rs, []) := rfl

/-- Unfolding rule for `getClient`. -/
theorem getClient_run (st : ClientState) (rs : List PyVal) :
    getClient st rs = (.ok st, st, rs, []) := rfl

/-- Unfolding rule for `modifyClient`. -/
theorem modifyClient_run (f : ClientState → ClientState) (st : ClientState)
    (rs : List PyVal) : modifyClient f st rs = (.ok (), f st, rs, []) := rfl

/-- `==` against a string value is false when the values differ. -/
theorem pyBeq_str_of_ne {v : PyVal} {t : String} (h : v ≠ PyVal.str t) :
    (v == PyVal.str t) = false := by
  cases v with
  | str s =>
    have hs : s ≠ t := fun hh => h (by rw [hh])
    simp [BEq.beq, pyBeq, hs]
  | none => rfl
  | bool b => rfl
  | int n => rfl
  | list xs => rfl
  | dict kvs => rfl

/-- `==` against an equal string value is true. -/
theorem pyBeq_str_self (t : String) : (PyVal.str t == PyVal.str t) = true := by
  simp [BEq.beq, pyBeq]

/-- C5 (amended): a quit-session call that receives a backend response
clears the session-active flag, the current platform and the element store,
but leaves the last-resolved element identifier unchanged. -/
theorem c5_quit_clears_all_but_last_element (env : PyEnv) (st : ClientState)
    (r : PyVal) (rest : List PyVal) :
    (quit_session env st (r :: rest)).2.1.session_active = false ∧
    (quit_session env st (r :: rest)).2.1.current_platform = PyVal.none ∧
    (quit_session env st (r :: rest)).2.1.element_store = [] ∧
    (quit_session env st (r :: rest)).2.1.last_element_id = st.last_element_id := by
  refine ⟨rfl, rfl, rfl, rfl⟩

/-- C5 (counterexample): after a quit-session call on a client whose last
resolved element id is `"element-42"`, that id is still recorded — the
session state is not cleared entirely. -/
theorem c5_counterexample :
    (quit_session trivialEnv
        { element_store := [("login", PyVal.str ("el-1"))],
          last_element_id := PyVal.str ("element-42"),
          session_active := true, current_platform := PyVal.str ("ios") }
        [PyVal.dict []]).2.1.last_element_id = PyVal.str ("element-42") ∧
    (quit_session trivialEnv
        { element_store := [("login", PyVal.str ("el-1"))],
          last_element_id := PyVal.str ("element-42"),
          session_active := true, current_platform := PyVal.str ("ios") }
        [PyVal.dict []]).2.1.last_element_id ≠ PyVal.none := by
  refine ⟨rfl, ?_⟩
  intro h
  exact PyVal.noConfusion (show PyVal.str ("element-42") = PyVal.none from h)

/-- C6 (counterexample): a content array of an unexpected shape — here a
head item with no `text` key — makes `parse_tool_result` raise (`KeyError`)
instead of normalizing to an error dict. -/
theorem c6_counterexample :
    parse_tool_result trivialEnv (.dict [("content", .list [.dict []])]) =
      .error ("KeyError: text") := rfl

/-- A dict `.get` that yields a non-`None` value pins down the lookup. -/
theorem lookup_of_dictGetD {kvs : List (String × PyVal)} {k : String} {v : PyVal}
    (h : dictGetD kvs k = v) (hv : v ≠ PyVal.none) :
    kvs.lookup k = Option.some v := by
  unfold dictGetD at h
  cases hl : kvs.lookup k with
  | none =>
    rw [hl] at h
    dsimp only at h
    exact absurd h.symm hv
  | some w =>
    rw [hl] at h
    dsimp only at h
    rw [h]

/-- On a well-shaped envelope, `parse_tool_result` decodes the embedded
text: the decoded value on success, the invalid-JSON error dict on a decode
failure. -/
theorem parse_tool_result_of_envelope_text {r : PyVal} {s : String} (env : PyEnv)
    (he : envelope_text r = Option.some s) :
    parse_tool_result env r =
      match env.json_loads s with
      | Option.some v => .ok v
      | Option.none => .ok invalid_json_error := by
  cases r with
  | dict kvs =>
    unfold envelope_text at he
    dsimp only at he
    cases hcont : dictGetD kvs "content" with
    | list xs =>
      cases xs with
      | nil => rw [hcont] at he; simp at he
      | cons first rest =>
        rw [hcont] at he
        cases first with
        | dict fkvs =>
          simp only at he
          cases hl : fkvs.lookup "text" with
          | none => rw [hl] at he; simp at he
          | some v =>
            cases v with
            | str s₀ =>
              rw [hl] at he
              simp only [Option.some.injEq] at he
              subst he
              have htr : pyTruthy (dictGetD kvs "content") = true := by
                rw [hcont]; rfl
              have hlook : kvs.lookup "content" =
                  Option.some (.list (PyVal.dict fkvs :: rest)) :=
                lookup_of_dictGetD hcont (fun hh => PyVal.noConfusion hh)
              simp only [parse_tool_result, htr, if_true, pySubscriptStr, hlook,
                pySubscriptNat, List.get?, hl, invalid_json_error, bind, pure,
                Except.bind, Except.pure]
            | none => rw [hl] at he; simp at he
            | bool b => rw [hl] at he; simp at he
            | int n => rw [hl] at he; simp at he
            | list l => rw [hl] at he; simp at he
            | dict d => rw [hl] at he; simp at he
        | none => simp at he
        | bool b => simp at he
        | int n => simp at he
        | str t => simp at he
        | list l => simp at he
    | none => rw [hcont] at he; simp at he
    | bool b => rw [hcont] at he; simp at he
    | int n => rw [hcont] at he; simp at he
    | str t => rw [hcont] at he; simp at he
    | dict d => rw [hcont] at he; simp at he
  | none => simp [envelope_text] at he
  | bool b => simp [envelope_text] at he
  | int n => simp [envelope_text] at he
  | str t => simp [envelope_text] at he
  | list l => simp [envelope_text] at he

/-- C6 (amended): the result normalizer returns the no-content error dict
whenever `content` is absent or falsy (including non-dict responses); on a
well-shaped content array whose embedded text does not decode as JSON it
returns the invalid-JSON error dict; on a decodable text it returns the
decoded value.  (A truthy `content` of any other shape raises instead of
normalizing — see the counterexample.) -/
theorem c6_parse_tool_result_normalizes (env : PyEnv) (r : PyVal) (s : String) :
    (content_falsy r = true → parse_tool_result env r = .ok no_content_error) ∧
    (envelope_text r = Option.some s → env.json_loads s = Option.none →
      parse_tool_result env r = .ok invalid_json_error) ∧
    (∀ v, envelope_text r = Option.some s → env.json_loads s = Option.some v →
      parse_tool_result env r = .ok v) := by
  refine ⟨?_, ?_, ?_⟩
  · intro h
    cases r with
    | dict kvs =>
      have hf : pyTruthy (dictGetD kvs "content") = false := by
        simpa [content_falsy] using h
      simp [parse_tool_result, hf, no_content_error, pure, Except.pure]
    | none => rfl
    | bool b => rfl
    | int n => rfl
    | str t => rfl
    | list l => rfl
  · intro he hj
    rw [parse_tool_result_of_envelope_text env he, hj]
  · intro v he hj
    rw [parse_tool_result_of_envelope_text env he, hj]

/-- Witness for C6 (amended) at concrete envelopes: an empty dict, an
envelope whose text never decodes, and an envelope whose text decodes to a
success dict. -/
theorem c6_parse_tool_result_normalizes_witness :
    parse_tool_result trivialEnv (.dict []) = .ok no_content_error ∧
    parse_tool_result trivialEnv (envelope ("zzz")) = .ok invalid_json_error ∧
    parse_tool_result
      (⟨fun s => if s = "R9" then
          Option.some (.dict [("status", .str ("success"))]) else Option.none,
        fun _ => 0, fun _ _ => [], fun _ _ => Option.none, fun _ _ s => s⟩ : PyEnv)
      (envelope ("R9")) = .ok (.dict [("status", .str ("success"))]) := by
  refine ⟨(c6_parse_tool_result_normalizes trivialEnv (.dict []) ("zzz")).1 rfl,
    (c6_parse_tool_result_normalizes trivialEnv (envelope ("zzz")) ("zzz")).2.1 rfl rfl,
    (c6_parse_tool_result_normalizes _ (envelope ("R9")) ("R9")).2.2 _ rfl rfl⟩

mutual
/-- Invariant of `traverse_element`: the collected-count mirrors the list
length and never exceeds `max_elements`. -/
theorem traverse_element_inv (max_elements : Nat) (elem : XMLElem)
    (acc : List (List (String × PyVal)) × Nat)
    (h : acc.1.length = acc.2) (hle : acc.2 ≤ max_elements) :
    (traverse_element max_elements elem acc).1.length =
      (traverse_element max_elements elem acc).2 ∧
    (traverse_element max_elements elem acc).2 ≤ max_elements := by
  match elem with
  | .node tag attrib text children =>
    unfold traverse_element
    by_cases hc : acc.2 ≥ max_elements
    · rw [if_pos hc]
      exact ⟨h, hle⟩
    · rw [if_neg hc]
      have hlt : acc.2 < max_elements := Nat.lt_of_not_le hc
      cases he : element_info_of (.node tag attrib text children) with
      | mk clean useful =>
        dsimp only
        cases useful with
        | true =>
          exact traverse_children_inv max_elements children
            (acc.1 ++ [clean], acc.2 + 1)
            (by simp [h]) (Nat.succ_le_of_lt hlt)
        | false =>
          exact traverse_children_inv max_elements children acc h hle
termination_by sizeOf elem

/-- Invariant of `traverse_children`. -/
theorem traverse_children_inv (max_elements : Nat) (children : List XMLElem)
    (acc : List (List (String × PyVal)) × Nat)
    (h : acc.1.length = acc.2) (hle : acc.2 ≤ max_elements) :
    (traverse_children max_elements children acc).1.length =
      (traverse_children max_elements children acc).2 ∧
    (traverse_children max_elements children acc).2 ≤ max_elements := by
  match children with
  | [] =>
    unfold traverse_children
    exact ⟨h, hle⟩
  | c :: cs =>
    unfold traverse_children
    by_cases hc : acc.2 ≥ max_elements
    · rw [if_pos hc]
      exact ⟨h, hle⟩
    · rw [if_neg hc]
      have h₁ := traverse_element_inv max_elements c acc h hle
      exact traverse_children_inv max_elements cs _ h₁.1 h₁.2
termination_by sizeOf children
end

/-- C9: for every parsed page-source XML tree and every bound
`max_elements`, the snapshot extractor collects at most `max_elements`
element descriptors, even though its depth-first traversal may visit more
nodes than it collects. -/
theorem c9_extractor_respects_max_elements (max_elements : Nat) (root : XMLElem) :
    (enhanced_extract_selectors_elements max_elements root).length ≤ max_elements := by
  have h := traverse_element_inv max_elements root ([], 0) rfl (Nat.zero_le _)
  unfold enhanced_extract_selectors_elements
  rw [h.1]
  exact h.2

/-- One candidate-generation step appends exactly the classification of the
element. -/
theorem find_candidates_step_eq (target_lower : String)
    (acc : List (String × List (String × PyVal))) (element : List (String × PyVal)) :
    find_candidates_step target_lower acc element =
      acc ++ (cand_tag target_lower element).toList := by
  unfold find_candidates_step cand_tag
  by_cases h₁ : field_lower_strip element "text" = target_lower ∨
      field_lower_strip element "accessibility_id" = target_lower ∨
      field_lower_strip element "label" = target_lower
  · simp [h₁]
  · by_cases h₂ : strContains (field_lower_strip element "text") target_lower ∨
        strContains (field_lower_strip element "accessibility_id") target_lower ∨
        strContains (field_lower_strip element "label") target_lower
    · simp [h₁, h₂]
    · simp [h₁, h₂]

/-- The candidate fold is an order-preserving classification. -/
theorem find_candidates_foldl (target_lower : String) :
    ∀ (elements : List (List (String × PyVal)))
      (acc : List (String × List (String × PyVal))),
      elements.foldl (find_candidates_step target_lower) acc =
        acc ++ elements.filterMap (cand_tag target_lower)
  | [], acc => by simp
  | e :: es, acc => by
    simp only [List.foldl_cons, List.filterMap_cons, find_candidates_step_eq]
    rw [find_candidates_foldl target_lower es]
    cases cand_tag target_lower e <;> simp

/-- C1 (amended): candidate generation is a single pass that preserves the
descriptors' original order, tagging each descriptor "exact" when one of
its text / accessibility-id / label fields equals the lowercased trimmed
target and "contains" when one merely contains it; no reordering by tier
happens, so (as the counterexample shows) an "exact" candidate is tried
before a "contains" candidate only when it precedes it in the descriptor
list. -/
theorem c1_candidates_are_ordered_classification
    (elements : List (List (String × PyVal))) (target_text : String) :
    find_element_candidates elements target_text =
      elements.filterMap (cand_tag (pyStrip (pyLower target_text))) := by
  unfold find_element_candidates
  simpa using find_candidates_foldl (pyStrip (pyLower target_text)) elements []

/-- C1 (counterexample): on the two-descriptor snapshot
`[{text:"xlogin", xpath:"//a"}, {text:"login", accessibility_id:"loginBtn",
xpath:"//b"}]` and target `"login"`, candidate generation yields the
"contains" candidate before the "exact" one (the claimed tier ordering is
violated), and the candidate-trial loop then tries — and resolves — the
"contains" candidate's xpath `//a` first, never reaching the "exact"
candidate. -/
theorem c1_counterexample :
    find_element_candidates [c1_contains_descriptor, c1_exact_descriptor] ("login") =
      [("contains", c1_contains_descriptor), ("exact", c1_exact_descriptor)] ∧
    tier_ordered
      (find_element_candidates [c1_contains_descriptor, c1_exact_descriptor] ("login"))
      = false ∧
    (try_element_candidates c1_env
        (find_element_candidates [c1_contains_descriptor, c1_exact_descriptor] ("login"))
        ("login") initState [envelope ("R1")]).2.2.2 =
      [⟨"appium_find_element",
        [("strategy", PyVal.str ("xpath")), ("value", PyVal.str ("//a"))]⟩] ∧
    (try_element_candidates c1_env
        (find_element_candidates [c1_contains_descriptor, c1_exact_descriptor] ("login"))
        ("login") initState [envelope ("R1")]).1 =
      .ok (PyVal.str ("el-1"),
        PyVal.dict [("status", PyVal.str ("success")),
                    ("element_id", PyVal.str ("el-1"))]) := by
  refine ⟨rfl, rfl, rfl, rfl⟩

/-- C3: in tap-with-verification, when the backend tap call parses to a
result whose status is not "success", that result is returned unchanged,
the backend trace stops at exactly two calls (the before-fingerprint
page-source read and the tap), the rest of the response stream is untouched
(so no after-fingerprint is captured and no verification runs), no
alternative tap method issues any call, and the client state is unchanged. -/
theorem c3_tap_failure_returns_immediately (env : PyEnv) (st : ClientState)
    (fpResp tapResp : PyVal) (rest : List PyVal) (d v : PyVal)
    (h₁ : parse_tool_result env tapResp = .ok d)
    (h₂ : pyGetE d "status" = .ok v)
    (h₃ : v ≠ PyVal.str ("success")) :
    smart_tap_element env (PyVal.str ("el7")) st (fpResp :: tapResp :: rest) =
      (.ok d, st, rest,
       [⟨"appium_get_page_source", [("full", PyVal.bool false)]⟩,
        ⟨"appium_tap_element", [("element_id", PyVal.str ("el7"))]⟩]) := by
  have hres : resolve_element_id (PyVal.str ("el7")) st (fpResp :: tapResp :: rest) =
      (.ok (PyVal.str ("el7")), st, fpResp :: tapResp :: rest, []) := rfl
  have hfp : get_page_fingerprint env st (fpResp :: tapResp :: rest) =
      (.ok (page_fingerprint_of_result env fpResp), st, tapResp :: rest,
       [⟨"appium_get_page_source", [("full", PyVal.bool false)]⟩]) := rfl
  have htru : pyTruthy (PyVal.str ("el7")) = true := rfl
  unfold smart_tap_element
  simp only [bind_run, pure_run, liftE_run, call_tool_run_cons, hres, hfp, htru,
    h₁, h₂, bne, pyBeq_str_of_ne h₃, Bool.not_true, Bool.not_false,
    if_true, if_false, ite_true, ite_false, List.append_nil,
    List.nil_append, List.cons_append]
  simp [bind_run, pure_run, liftE_run, call_tool_run_cons, hfp,
    h₁, h₂, bne, pyBeq_str_of_ne h₃]

/-- Witness for C3 at a concrete run: an empty-dict tap response parses to
the no-content error dict (status "error"), which is returned immediately
after exactly two backend calls. -/
theorem c3_tap_failure_returns_immediately_witness :
    smart_tap_element trivialEnv (PyVal.str ("el7")) initState
        [PyVal.none, PyVal.dict []] =
      (.ok no_content_error, initState, [],
       [⟨"appium_get_page_source", [("full", PyVal.bool false)]⟩,
        ⟨"appium_tap_element", [("element_id", PyVal.str ("el7"))]⟩]) :=
  c3_tap_failure_returns_immediately trivialEnv initState PyVal.none
    (PyVal.dict []) [] no_content_error (PyVal.str ("error")) rfl rfl
    (fun h => absurd (PyVal.str.inj h) (by decide))

/-- C4: when a get-text result signals a stale-element error and recovery
strategy 1 (re-locating the "Name" cell by accessibility id) yields a
truthy text whose strip is not the literal "Name", `smart_get_text`
returns strategy 1's success result after exactly three backend calls —
the stale read, the Name-cell find, and the Name-cell read — with the rest
of the stream untouched: the xpath strategy (2) and the page-source
strategy (3) are never invoked. -/
theorem c4_stale_recovery_strategy1_short_circuits (env : PyEnv)
    (st : ClientState) (r₁ r₂ r₃ : PyVal) (rest : List PyVal)
    (d₁ d₂ d₃ m nid : PyVal) (t : String)
    (h₁ : parse_tool_result env r₁ = .ok d₁)
    (h₂ : pyGetE d₁ "status" = .ok (PyVal.str ("error")))
    (h₃ : pyGetDE d₁ "message" (PyVal.str ("")) = .ok m)
    (h₄ : strContains (pyStr m) ("StaleElementReferenceException") = true)
    (h₅ : parse_tool_result env r₂ = .ok d₂)
    (h₆ : pyGetE d₂ "status" = .ok (PyVal.str ("success")))
    (h₇ : pyGetE d₂ "element_id" = .ok nid)
    (h₈ : parse_tool_result env r₃ = .ok d₃)
    (h₉ : pyGetE d₃ "status" = .ok (PyVal.str ("success")))
    (h₁₀ : pyGetDE d₃ "text" (PyVal.str ("")) = .ok (PyVal.str t))
    (h₁₁ : t ≠ "")
    (h₁₂ : pyStrip t ≠ "Name") :
    smart_get_text env (PyVal.str ("el7")) st (r₁ :: r₂ :: r₃ :: rest) =
      (.ok (PyVal.dict [("status", PyVal.str ("success")), ("text", PyVal.str t),
         ("message", PyVal.str ("Recovered text via Name cell: " ++ t)),
         ("method", PyVal.str ("name_cell_recovery"))]),
       st, rest,
       [⟨"appium_get_text", [("element_id", PyVal.str ("el7"))]⟩,
        ⟨"appium_find_element",
         [("strategy", PyVal.str ("accessibility_id")), ("value", PyVal.str ("Name"))]⟩,
        ⟨"appium_get_text", [("element_id", nid)]⟩]) := by
  have hres : resolve_element_id (PyVal.str ("el7")) st (r₁ :: r₂ :: r₃ :: rest) =
      (.ok (PyVal.str ("el7")), st, r₁ :: r₂ :: r₃ :: rest, []) := rfl
  have htru7 : pyTruthy (PyVal.str ("el7")) = true := rfl
  have htru : pyTruthy (PyVal.str t) = true := by simp [pyTruthy, h₁₁]
  have hrec : pyGetE (PyVal.dict [("status", PyVal.str ("success")),
      ("text", PyVal.str t),
      ("message", PyVal.str ("Recovered text via Name cell: " ++ t)),
      ("method", PyVal.str ("name_cell_recovery"))]) "status" =
      .ok (PyVal.str ("success")) := rfl
  unfold smart_get_text recover_name_cell_text
  simp only [bind_run, pure_run, liftE_run, call_tool_run_cons, tryE_run, hres,
    htru7, htru, hrec, h₁, h₂, h₃, h₄, h₅, h₆, h₇, h₈, h₉, h₁₀, h₁₂,
    pyBeq_str_self, Bool.not_true, Bool.not_false, if_true, if_false,
    ite_true, ite_false, ne_eq, not_false_iff, List.append_nil,
    List.nil_append, List.cons_append]
  simp [bind_run, pure_run, liftE_run, call_tool_run_cons, tryE_run, htru, hrec,
    h₁, h₂, h₃, h₄, h₅, h₆, h₇, h₈, h₉, h₁₀, h₁₂, pyBeq_str_self]

/-- Witness for C4 at a concrete run: the stale read, then a successful
Name-cell find and read recovering the text "John Appleseed" in exactly
three backend calls. -/
theorem c4_stale_recovery_strategy1_short_circuits_witness :
    smart_get_text
      (⟨fun s =>
          if s = "S1" then
            Option.some (.dict [("status", .str ("error")),
              ("message", .str ("StaleElementReferenceException"))])
          else if s = "S2" then
            Option.some (.dict [("status", .str ("success")),
              ("element_id", .str ("name-cell-1"))])
          else if s = "S3" then
            Option.some (.dict [("status", .str ("success")),
              ("text", .str ("John Appleseed"))])
          else Option.none,
        fun _ => 0, fun _ _ => [], fun _ _ => Option.none, fun _ _ s => s⟩ : PyEnv)
      (PyVal.str ("el7")) initState
      [envelope ("S1"), envelope ("S2"), envelope ("S3")] =
      (.ok (PyVal.dict [("status", PyVal.str ("success")),
         ("text", PyVal.str ("John Appleseed")),
         ("message", PyVal.str ("Recovered text via Name cell: John Appleseed")),
         ("method", PyVal.str ("name_cell_recovery"))]),
       initState, [],
       [⟨"appium_get_text", [("element_id", PyVal.str ("el7"))]⟩,
        ⟨"appium_find_element",
         [("strategy", PyVal.str ("accessibility_id")), ("value", PyVal.str ("Name"))]⟩,
        ⟨"appium_get_text", [("element_id", PyVal.str ("name-cell-1"))]⟩]) :=
  c4_stale_recovery_strategy1_short_circuits _ initState
    (envelope ("S1")) (envelope ("S2")) (envelope ("S3")) []
    (.dict [("status", .str ("error")),
      ("message", .str ("StaleElementReferenceException"))])
    (.dict [("status", .str ("success")), ("element_id", .str ("name-cell-1"))])
    (.dict [("status", .str ("success")), ("text", .str ("John Appleseed"))])
    (.str ("StaleElementReferenceException")) (.str ("name-cell-1"))
    ("John Appleseed") rfl rfl rfl (by decide) rfl rfl rfl rfl rfl rfl
    (by decide) (by decide)
